import Mathlib

/-
Verification of the CadiDAQ settings-synchronization engine (src/main.cpp).

The development shallowly embeds the engine: the direction enumeration, the
generic Field Programmer (`programWrapper`), the Optional Field Programmer
(the `boost::optional` overload), the mask programming wrapper
(`programMaskWrapper`), the Settings Orchestrator (`programSettings`), the
per-device configuration cycle and the device loop of `read_ini_file`.
Device accessors are modelled as `Except`-returning functions (an exception
from the `caen` driver becomes an `Except.error`), and every operation
returns, next to its value, the ordered trace of device calls and log
events it produced, so that claims about which accessors are driven, which
errors and warnings are logged, and in which order the passes run can be
stated and proved.

The helper conversions `vec2Mask`/`mask2Vec` (helper.hpp), the settings
record type (settings.hpp) and the `caen::Digitizer` class (caen.hpp) are
declared outside the available sources; where needed they are modelled
from the specification, as flagged in their doc comments.
-/

namespace CadiDAQ

/-- The two synchronization directions, embedding `enum class comDirection`
(main.cpp line 45). -/
inductive comDirection where
| READING
| WRITING
deriving DecidableEq

/-- Modelled from the spec: `caen::Error` (caen.hpp is not among the
sources), the device-communication exception; per the device-boundary
contract it carries a human-readable description (`what()`) and the name of
the failing accessor (`where()`, here `origin`). -/
structure caenError where
  what : String
  origin : String
deriving DecidableEq

/-- Modelled from the spec: one setter/getter accessor pair of the device
boundary. `setResult v` is the device's response to the setter called with
`v`; `getResult` is the getter's response. An `Except.error` models a
thrown `caen::Error`. -/
structure Accessor (T : Type) where
  name : String
  setResult : T → Except caenError Unit
  getResult : Except caenError T

/-- Modelled from the spec: the `caen::Digitizer` device handle (caen.hpp
is not among the sources): identification strings, capability facts
(channel count, group count) and the accessor pairs that `programSettings`
drives. The trigger-mode enumeration is encoded as `Nat`. -/
structure Digitizer where
  modelName : String
  serialNumber : String
  channels : Nat
  groups : Nat
  swTriggerMode : Accessor Nat
  channelEnableMask : Accessor Nat
  groupEnableMask : Accessor Nat

/-- Modelled from the spec: the settings record
(`cadidaq::registerSettings`, settings.hpp is not among the sources), with
the two fields `programSettings` synchronizes: the optional scalar
`swTriggerMode` and the per-channel enable vector `chEnable`
(one `boost::optional<bool>` per channel). -/
structure registerSettings where
  swTriggerMode : Option Nat
  chEnable : List (Option Bool)
deriving DecidableEq

/-- One entry of the engine's diagnostic/device trace: a setter call with
its stringified argument, a getter call, an error log (device identity,
the failing accessor from `caen::Error::where()`, and for WRITING the
attempted value, cf. main.cpp lines 59-63), or the mask-inconsistency
warning naming the setting and the mask (main.cpp line 88). -/
inductive Event where
| setCall (accessor : String) (value : String)
| getCall (accessor : String)
| errorLog (modelName serialNumber origin : String) (value : Option String)
| warnLog (setting : String) (mask : String)
deriving DecidableEq

/-- Whether an event is the mask-inconsistency warning. -/
def isWarn : Event → Bool
| .warnLog _ _ => true
| _ => false

/-- Whether a trace contains the mask-inconsistency warning. -/
def warnEmitted (trace : List Event) : Bool :=
  trace.any isWarn

/-- The accessors named by the error logs of a trace, in order. -/
def errAccessors (trace : List Event) : List String :=
  trace.filterMap fun ev => match ev with
    | .errorLog _ _ o _ => some o
    | _ => none

/-- The accessors touched by the device calls of a trace, in order. -/
def callAccessors (trace : List Event) : List String :=
  trace.filterMap fun ev => match ev with
    | .setCall a _ => some a
    | .getCall a => some a
    | _ => none

/-- Modelled from the spec: the number of channels covered by one group
bit when `nChannels` channels fall into `G` groups (helper.hpp is not
among the sources). Per spec 4.3 and the spec's 9 reading, a group
argument of 1 means full channel granularity (every channel its own
group), and otherwise the channels split into `G` contiguous groups. -/
def channelsPerGroup (nChannels G : Nat) : Nat :=
  if G ≤ 1 then 1 else max 1 (nChannels / G)

/-- Modelled from the spec: `vec2Mask` (helper.hpp is not among the
sources). For each channel whose optional is set and true, set the bit of
the channel's enclosing group; the result is a `uint32` mask. -/
def vec2Mask (vec : List (Option Bool)) (G : Nat) : Nat :=
  ((List.range vec.length).foldl
    (fun m i =>
      if vec.getD i none = some true then
        m ||| (1 <<< (i / channelsPerGroup vec.length G))
      else m)
    0) % 2 ^ 32

/-- Modelled from the spec: `mask2Vec` (helper.hpp is not among the
sources). Every channel's optional boolean becomes whether its enclosing
group's bit is set. -/
def mask2Vec (mask : Nat) (vec : List (Option Bool)) (G : Nat) : List (Option Bool) :=
  (List.range vec.length).map fun i =>
    some (Nat.testBit mask (i / channelsPerGroup vec.length G))

/-- The Field Programmer: embedding of
`programWrapper<T>(caen::Digitizer*, setter, getter, T&, comDirection)`
(main.cpp lines 47-65). WRITING pushes `value` through the setter; READING
overwrites `value` with the getter's result. A `caen::Error` is caught
here: the error is logged (device identity, failing accessor, and for
WRITING the attempted value) and the caller's value is returned as-is.
The second component is the trace of device calls and log events. -/
def programWrapper {T : Type} [ToString T] (dig : Digitizer) (acc : Accessor T)
    (value : T) (direction : comDirection) : T × List Event :=
  match direction with
  | .WRITING =>
    match acc.setResult value with
    | .ok _ => (value, [.setCall acc.name (toString value)])
    | .error e =>
      (value, [.setCall acc.name (toString value),
               .errorLog dig.modelName dig.serialNumber e.origin (some (toString value))])
  | .READING =>
    match acc.getResult with
    | .ok v => (v, [.getCall acc.name])
    | .error e =>
      (value, [.getCall acc.name,
               .errorLog dig.modelName dig.serialNumber e.origin none])

/-- The Optional Field Programmer: embedding of the `boost::optional<T>&`
overload of `programWrapper` (main.cpp lines 67-79). A set optional
delegates on its contents; an unset optional is skipped when WRITING; when
READING, the source reads into a default-initialized dummy `T k;` and then
stores `k` into the optional unconditionally — the model renders the dummy
as `default`, including on the path where the read failed and `k` kept its
initial (in C++: indeterminate) value. -/
def programWrapperOpt {T : Type} [ToString T] [Inhabited T] (dig : Digitizer)
    (acc : Accessor T) (value : Option T) (direction : comDirection) :
    Option T × List Event :=
  match value with
  | some v =>
    let r := programWrapper dig acc v direction
    (some r.1, r.2)
  | none =>
    match direction with
    | .READING =>
      let r := programWrapper dig acc (default : T) direction
      (some r.1, r.2)
    | .WRITING => (none, [])

/-- The mask programming wrapper: embedding of `programMaskWrapper`
(main.cpp lines 81-94). When WRITING, the mask is first derived from the
vector at the device's group count; the consistency check then compares
that mask (or the still-zero mask, when READING) against the mask at group
argument 1 and logs the warning on mismatch; then the Field Programmer is
driven and, when READING, the retrieved mask is expanded back into the
vector. The `acc` parameter mirrors the source's `write`/`read`
member-pointer parameters, which the body never uses: line 90 hard-codes
the ChannelEnableMask pair. -/
def programMaskWrapper (dig : Digitizer) (acc : Accessor Nat)
    (vec : List (Option Bool)) (name : String) (direction : comDirection) :
    List (Option Bool) × List Event :=
  let mask : Nat :=
    match direction with
    | .WRITING => vec2Mask vec dig.groups
    | .READING => 0
  let warns : List Event :=
    if mask ≠ vec2Mask vec 1 then [.warnLog name (toString mask)] else []
  let r := programWrapper dig dig.channelEnableMask mask direction
  let vecOut : List (Option Bool) :=
    match direction with
    | .READING => mask2Vec r.1 vec dig.groups
    | .WRITING => vec
  (vecOut, warns ++ r.2)

/-- The Settings Orchestrator: embedding of `programSettings`
(main.cpp lines 97-108). One pass synchronizes, in order, the optional
`swTriggerMode` field and the `chEnable` mask field; for the latter it
selects the channel-enable accessor pair when the device's group count is
1 and the group-enable pair otherwise, and hands the selected pair to the
mask wrapper. -/
def programSettings (dig : Digitizer) (settings : registerSettings)
    (direction : comDirection) : registerSettings × List Event :=
  let rTrig := programWrapperOpt dig dig.swTriggerMode settings.swTriggerMode direction
  let rMask :=
    if dig.groups = 1 then
      programMaskWrapper dig dig.channelEnableMask settings.chEnable "chEnable" direction
    else
      programMaskWrapper dig dig.groupEnableMask settings.chEnable "chEnable" direction
  (⟨rTrig.1, rMask.1⟩, rTrig.2 ++ rMask.2)

/-- An event of one device's configuration cycle: a full synchronization
pass in a direction (with its field-level trace), or the warning for one
unrecognized configuration key left over after parsing. -/
inductive CycleEvent where
| pass (direction : comDirection) (trace : List Event)
| unknownKey (key : String)
deriving DecidableEq

/-- The directions of the synchronization passes of a cycle trace, in
order. -/
def passDirs (trace : List CycleEvent) : List comDirection :=
  trace.filterMap fun ev => match ev with
    | .pass d _ => some d
    | _ => none

/-- One device's configuration cycle: embedding of main.cpp lines 188-194:
`programSettings(..., WRITING)`, then one warning per configuration key
remaining after parsing, then `programSettings(..., READING)` on the same
settings record. -/
def deviceConfigCycle (dig : Digitizer) (settings : registerSettings)
    (leftoverKeys : List String) : registerSettings × List CycleEvent :=
  let w := programSettings dig settings comDirection.WRITING
  let r := programSettings dig w.1 comDirection.READING
  (r.1, CycleEvent.pass comDirection.WRITING w.2
        :: (leftoverKeys.map CycleEvent.unknownKey
            ++ [CycleEvent.pass comDirection.READING r.2]))

/-- `EXIT_FAILURE`, the process exit status used by main.cpp line 167. -/
def EXIT_FAILURE : Nat := 1

/-- A top-level event of the device loop of `read_ini_file`: the logged
connection exception, the remediation-guidance log, one fully configured
device together with its cycle trace, the process-terminating exit call,
or the (undefined-behavior) dereference of a null device handle. -/
inductive TopEvent where
| connError (devName : String)
| remediation
| deviceConfigured (devName : String) (cycle : List CycleEvent)
| exitCall (code : Nat)
| nullDerefUB (devName : String)
deriving DecidableEq

/-- One parsed device section of the configuration file, as the device
loop consumes it: its section name, the outcome of
`caen::Digitizer::open` (an exception, or a returned — possibly null —
handle), the parsed register settings, and the configuration keys left
over after parsing. -/
structure DeviceCfg where
  name : String
  openResult : Except caenError (Option Digitizer)
  settings : registerSettings
  leftoverKeys : List String

/-- Whether a device section's `open` returns a non-null handle without
throwing. -/
def opensOK (cfg : DeviceCfg) : Bool :=
  match cfg.openResult with
  | .ok (some _) => true
  | _ => false

/-- Whether a top-level event records a fully configured device. -/
def isConfigured : TopEvent → Bool
| .deviceConfigured _ _ => true
| _ => false

/-- The device loop of `read_ini_file` (main.cpp lines 138-197). Per
section: attempt `open`; on a thrown `caen::Error` the exception is
logged, the handle is still null, so the remediation guidance is logged
and the process exits with `EXIT_FAILURE`; were `open` ever to return null
without throwing, the loop body would proceed into the status printout and
dereference the null handle; otherwise the device is configured (status
printout, WRITING pass, leftover-key warnings, READING pass) and the loop
continues with the next section. -/
def processDevices : List DeviceCfg → List TopEvent
| [] => []
| cfg :: rest =>
  match cfg.openResult with
  | .error _ => [.connError cfg.name, .remediation, .exitCall EXIT_FAILURE]
  | .ok none => [.nullDerefUB cfg.name]
  | .ok (some dig) =>
    .deviceConfigured cfg.name (deviceConfigCycle dig cfg.settings cfg.leftoverKeys).2
      :: processDevices rest

/-- The control outcome of one connection attempt: the fatal
`exit(EXIT_FAILURE)` inside the catch handler, or falling through to the
rest of the loop body carrying the (possibly null) handle. -/
inductive ConnectStep where
| fatalExit
| proceed (digitizer : Option Digitizer)

/-- The connection attempt of one loop iteration (main.cpp lines 152-169):
`digitizer` starts null; `open` either throws — in which case the catch
handler finds `digitizer` still null and exits — or its result becomes the
handle with which the iteration proceeds. The null check exists only
inside the catch handler. -/
def connectAttempt (r : Except caenError (Option Digitizer)) : ConnectStep :=
  match r with
  | .error _ =>
    let digitizer : Option Digitizer := none
    if digitizer.isNone then ConnectStep.fatalExit else ConnectStep.proceed digitizer
  | .ok h => ConnectStep.proceed h

/-- A device-boundary stub accessor that always succeeds; its getter
returns `v`. -/
def okAcc {T : Type} (name : String) (v : T) : Accessor T :=
  ⟨name, fun _ => .ok (), .ok v⟩

/-- A device-boundary stub accessor that always fails, raising a
`caen::Error` whose `where()` names the accessor. -/
def failAcc {T : Type} (name what : String) : Accessor T :=
  ⟨name, fun _ => .error ⟨what, name⟩, .error ⟨what, name⟩⟩

/-- An 8-channel ungrouped device stub whose accessors all succeed; the
trigger-mode getter returns `gv`, the mask getters return `mv`. -/
def stubAllOK (gv mv : Nat) : Digitizer :=
  { modelName := "V1730"
    serialNumber := "0042"
    channels := 8
    groups := 1
    swTriggerMode := okAcc "SWTriggerMode" gv
    channelEnableMask := okAcc "ChannelEnableMask" mv
    groupEnableMask := okAcc "GroupEnableMask" mv }

/-- Like `stubAllOK`, but the trigger-mode accessor pair fails. -/
def stubTrigFail (mv : Nat) : Digitizer :=
  { stubAllOK 0 mv with
    swTriggerMode := failAcc "SWTriggerMode" "communication error" }

/-- Like `stubAllOK`, but the enable-mask accessor pairs fail. -/
def stubMaskFail (gv : Nat) : Digitizer :=
  { stubAllOK gv 0 with
    channelEnableMask := failAcc "ChannelEnableMask" "communication error"
    groupEnableMask := failAcc "GroupEnableMask" "communication error" }

/-- An 8-channel device stub with 2 groups of 4 channels, all accessors
succeeding. -/
def dig2g : Digitizer :=
  { modelName := "V1742"
    serialNumber := "0007"
    channels := 8
    groups := 2
    swTriggerMode := okAcc "SWTriggerMode" 0
    channelEnableMask := okAcc "ChannelEnableMask" 0
    groupEnableMask := okAcc "GroupEnableMask" 0 }

/-- A device section that connects successfully. -/
def cfgFirst : DeviceCfg :=
  ⟨"dig0", .ok (some (stubAllOK 0 0)), ⟨none, [some true]⟩, []⟩

/-- A device section whose `open` throws a connection error. -/
def cfgBad : DeviceCfg :=
  ⟨"dig1", .error ⟨"no connection", "CAEN_DGTZ_OpenDigitizer"⟩, ⟨none, []⟩, []⟩

/-- A device section after the failing one. -/
def cfgAfter : DeviceCfg :=
  ⟨"dig2", .ok (some (stubAllOK 0 0)), ⟨none, []⟩, []⟩

/-- The mask wrapper never consults its accessor-pair argument: the body
hard-codes the ChannelEnableMask pair (main.cpp line 90), so the wrapper
is the same function whatever pair `programSettings` selects. -/
theorem programMaskWrapper_ignores_accessor (dig : Digitizer) (a b : Accessor Nat)
    (vec : List (Option Bool)) (name : String) (d : comDirection) :
    programMaskWrapper dig a vec name d = programMaskWrapper dig b vec name d := rfl

/-- The Field Programmer never emits the mask-inconsistency warning: its
trace holds only device calls and error logs. -/
theorem programWrapper_no_warn {T : Type} [ToString T] (dig : Digitizer)
    (acc : Accessor T) (v : T) (d : comDirection) :
    ((programWrapper dig acc v d).2.any isWarn) = false := by
  cases d with
  | READING => cases h : acc.getResult <;> simp [programWrapper, h, isWarn]
  | WRITING => cases h : acc.setResult v <;> simp [programWrapper, h, isWarn]

/-- Claim C1 (code bug): on a device with 2 groups, where `programSettings`
selects and passes the group-enable accessor pair, the pass nevertheless
drives the channel-enable pair — `programMaskWrapper` ignores the pair it
is handed and hard-codes the ChannelEnableMask accessors (main.cpp
line 90). The device trace of a WRITING pass names only
"ChannelEnableMask", never "GroupEnableMask". -/
theorem chEnable_accessor_selection_bug :
    dig2g.groups = 2
    ∧ callAccessors
        (programSettings dig2g ⟨none, List.replicate 8 (some true)⟩
          comDirection.WRITING).2 = ["ChannelEnableMask"]
    ∧ callAccessors
        (programSettings dig2g ⟨none, List.replicate 8 (some true)⟩
          comDirection.READING).2 = ["SWTriggerMode", "ChannelEnableMask"] := by decide

/-- Claim C2 (amended): in the WRITING direction the mask-inconsistency
warning is emitted iff the mask at the device's group granularity differs
from the mask at full channel granularity, and the setter is still driven
with the group-granularity mask afterwards; in the READING direction,
however, the comparison uses the still-unread mask value 0, so the warning
is emitted iff the channel-granularity mask is nonzero. -/
theorem mask_warning_condition (dig : Digitizer) (acc : Accessor Nat)
    (vec : List (Option Bool)) (name : String) :
    (warnEmitted (programMaskWrapper dig acc vec name comDirection.WRITING).2 = true
      ↔ vec2Mask vec dig.groups ≠ vec2Mask vec 1)
    ∧ (warnEmitted (programMaskWrapper dig acc vec name comDirection.READING).2 = true
      ↔ vec2Mask vec 1 ≠ 0)
    ∧ Event.setCall dig.channelEnableMask.name (toString (vec2Mask vec dig.groups))
        ∈ (programMaskWrapper dig acc vec name comDirection.WRITING).2 := by
  refine ⟨?_, ?_, ?_⟩
  · simp only [programMaskWrapper, warnEmitted, List.any_append, programWrapper_no_warn,
      Bool.or_false]
    by_cases h : vec2Mask vec dig.groups ≠ vec2Mask vec 1 <;> simp [h, isWarn]
  · simp only [programMaskWrapper, warnEmitted, List.any_append, programWrapper_no_warn,
      Bool.or_false]
    by_cases h : (0 : Nat) ≠ vec2Mask vec 1 <;> simp [h, isWarn, ne_comm]
  · have hmem : Event.setCall dig.channelEnableMask.name (toString (vec2Mask vec dig.groups))
        ∈ (programWrapper dig dig.channelEnableMask (vec2Mask vec dig.groups)
            comDirection.WRITING).2 := by
      cases h : dig.channelEnableMask.setResult (vec2Mask vec dig.groups) <;>
        simp [programWrapper, h]
    simp only [programMaskWrapper]
    exact List.mem_append_right _ hmem

/-- Witness for claim C2: on the all-succeeding ungrouped stub, the
WRITING pass drives the setter with the derived mask. -/
theorem mask_warning_condition_witness :
    Event.setCall "ChannelEnableMask" (toString (vec2Mask [some true] (stubAllOK 0 0).groups))
      ∈ (programMaskWrapper (stubAllOK 0 0) (stubAllOK 0 0).channelEnableMask
          [some true] "chEnable" comDirection.WRITING).2 :=
  (mask_warning_condition (stubAllOK 0 0) (stubAllOK 0 0).channelEnableMask
    [some true] "chEnable").2.2

/-- Counterexample to claim C2 as stated: on an ungrouped device the masks
at group granularity and at channel granularity are identical, yet a
READING pass over a vector with one enabled channel emits the
mask-inconsistency warning, because the code compares against the
still-zero mask variable before the read. -/
theorem mask_warning_counterexample :
    warnEmitted (programMaskWrapper (stubAllOK 0 0) (stubAllOK 0 0).channelEnableMask
      [some true] "chEnable" comDirection.READING).2 = true
    ∧ vec2Mask [some true] (stubAllOK 0 0).groups = vec2Mask [some true] 1 := by decide

/-- Claim C3 (code bug): a READING synchronization of an unset optional
field whose getter fails does not leave the field untouched: the source
reads into a default-initialized dummy `T k;`, the Field Programmer
catches the device error and leaves `k` at its initial (in C++:
indeterminate) value, and the source then stores `k` into the optional
anyway, flipping its is-set status to set. -/
theorem optional_read_failure_bug :
    (programWrapperOpt (stubAllOK 0 0)
        (failAcc "GetSWTriggerMode" "communication error" : Accessor Nat)
        (none : Option Nat) comDirection.READING)
      = (some 0, [Event.getCall "GetSWTriggerMode",
                  Event.errorLog "V1730" "0042" "GetSWTriggerMode" none])
    ∧ (programWrapperOpt (stubAllOK 0 0)
        (failAcc "GetSWTriggerMode" "communication error" : Accessor Nat)
        (none : Option Nat) comDirection.READING).1.isSome = true := by decide

/-- Claim C5: for every optional field that is unset, a WRITING
synchronization performs zero device accessor calls (the trace is empty
and the field stays unset), leaving the device register at its hardware
default. -/
theorem optional_unset_writing_skips (T : Type) [ToString T] [Inhabited T]
    (dig : Digitizer) (acc : Accessor T) :
    programWrapperOpt dig acc (none : Option T) comDirection.WRITING = (none, []) := rfl

/-- Claim C6: for every optional field that is unset, a READING
synchronization invokes the getter exactly once and, when the getter
returns `v`, leaves the field set with contents `v`. -/
theorem optional_unset_reading_populates (T : Type) [ToString T] [Inhabited T]
    (dig : Digitizer) (acc : Accessor T) (v : T)
    (hget : acc.getResult = Except.ok v) :
    programWrapperOpt dig acc (none : Option T) comDirection.READING
      = (some v, [Event.getCall acc.name]) := by
  simp [programWrapperOpt, programWrapper, hget]

/-- Witness for claim C6: an unset `Nat` field read from a stub whose
getter returns 5 becomes set with contents 5. -/
theorem optional_unset_reading_populates_witness :
    programWrapperOpt (stubAllOK 0 0) (okAcc "SWTriggerMode" (5 : Nat))
      (none : Option Nat) comDirection.READING
      = (some 5, [Event.getCall "SWTriggerMode"]) :=
  optional_unset_reading_populates Nat (stubAllOK 0 0) (okAcc "SWTriggerMode" 5) 5 rfl

/-- Claim C8: a WRITING synchronization of an optional field leaves the
field itself (hence its is-set status) unchanged, whether it is set or
unset and whether the device call succeeds or fails; consequently only a
READING synchronization can change the is-set status. -/
theorem writing_preserves_is_set (T : Type) [ToString T] [Inhabited T]
    (dig : Digitizer) (acc : Accessor T) (o : Option T) :
    (programWrapperOpt dig acc o comDirection.WRITING).1 = o
    ∧ (programWrapperOpt dig acc o comDirection.WRITING).1.isSome = o.isSome
    ∧ ∀ d : comDirection,
        (programWrapperOpt dig acc o d).1.isSome ≠ o.isSome → d = comDirection.READING := by
  have h1 : (programWrapperOpt dig acc o comDirection.WRITING).1 = o := by
    cases o with
    | none => rfl
    | some v =>
      cases h : acc.setResult v <;>
        simp [programWrapperOpt, programWrapper, h]
  refine ⟨h1, by rw [h1], ?_⟩
  intro d hd
  cases d with
  | READING => rfl
  | WRITING => exact absurd (by rw [h1]) hd

/-- Witness for claim C8: WRITING an unset `Nat` field against a stub
device leaves its is-set status unchanged. -/
theorem writing_preserves_is_set_witness :
    (programWrapperOpt (stubAllOK 0 0) (okAcc "SWTriggerMode" (0 : Nat))
      (none : Option Nat) comDirection.WRITING).1.isSome = (none : Option Nat).isSome :=
  (writing_preserves_is_set Nat (stubAllOK 0 0) (okAcc "SWTriggerMode" 0) none).2.1

/-- `errAccessors` distributes over trace concatenation. -/
theorem errAccessors_append (a b : List Event) :
    errAccessors (a ++ b) = errAccessors a ++ errAccessors b :=
  List.filterMap_append a b _

/-- The optional warning block contributes no error log. -/
theorem errAccessors_warns (c : Prop) [Decidable c] (n m : String) (t : List Event) :
    errAccessors ((if c then [Event.warnLog n m] else []) ++ t) = errAccessors t := by
  split <;> rfl

/-- `callAccessors` distributes over trace concatenation. -/
theorem callAccessors_append (a b : List Event) :
    callAccessors (a ++ b) = callAccessors a ++ callAccessors b :=
  List.filterMap_append a b _

/-- The optional warning block contributes no device call. -/
theorem callAccessors_warns (c : Prop) [Decidable c] (n m : String) (t : List Event) :
    callAccessors ((if c then [Event.warnLog n m] else []) ++ t) = callAccessors t := by
  split <;> rfl

/-- Claim C4: fault isolation across the fields of one full pass. Against
a stub on which exactly the trigger-mode accessor fails, the pass still
synchronizes the `chEnable` field exactly as it would on the
all-succeeding stub and logs exactly one error, naming the trigger-mode
accessor (provided that field is synchronized at all, i.e. the optional is
set or the pass is READING); symmetrically, when exactly the enable-mask
accessor fails, `swTriggerMode` is synchronized as on the all-succeeding
stub and the single error names the mask accessor. The failure never
escapes the Field Programmer: the subsequent mask device call still
appears in the trace. -/
theorem fault_isolation (s : registerSettings) (dir : comDirection) (gv mv : Nat)
    (hcall : s.swTriggerMode.isSome = true ∨ dir = comDirection.READING) :
    ((programSettings (stubTrigFail mv) s dir).1.chEnable
        = (programSettings (stubAllOK gv mv) s dir).1.chEnable
      ∧ errAccessors (programSettings (stubTrigFail mv) s dir).2 = ["SWTriggerMode"]
      ∧ "ChannelEnableMask" ∈ callAccessors (programSettings (stubTrigFail mv) s dir).2)
    ∧ ((programSettings (stubMaskFail gv) s dir).1.swTriggerMode
        = (programSettings (stubAllOK gv mv) s dir).1.swTriggerMode
      ∧ errAccessors (programSettings (stubMaskFail gv) s dir).2 = ["ChannelEnableMask"]) := by
  obtain ⟨t, ch⟩ := s
  cases t with
  | none =>
    cases dir with
    | WRITING =>
      rcases hcall with h | h
      · simp at h
      · simp at h
    | READING =>
      simp [programSettings, programWrapperOpt, programWrapper, programMaskWrapper,
        stubTrigFail, stubMaskFail, stubAllOK, okAcc, failAcc,
        errAccessors_append, errAccessors_warns, errAccessors,
        callAccessors_append, callAccessors_warns, callAccessors]
  | some v =>
    cases dir with
    | WRITING =>
      simp [programSettings, programWrapperOpt, programWrapper, programMaskWrapper,
        stubTrigFail, stubMaskFail, stubAllOK, okAcc, failAcc,
        errAccessors_append, errAccessors_warns, errAccessors,
        callAccessors_append, callAccessors_warns, callAccessors]
    | READING =>
      simp [programSettings, programWrapperOpt, programWrapper, programMaskWrapper,
        stubTrigFail, stubMaskFail, stubAllOK, okAcc, failAcc,
        errAccessors_append, errAccessors_warns, errAccessors,
        callAccessors_append, callAccessors_warns, callAccessors]

/-- Witness for claim C4: with the trigger-mode field set to 3, a WRITING
pass on the trigger-failing stub logs exactly one error, for the
trigger-mode accessor. -/
theorem fault_isolation_witness :
    errAccessors (programSettings (stubTrigFail 5) ⟨some 3, [some true]⟩
      comDirection.WRITING).2 = ["SWTriggerMode"] :=
  (fault_isolation ⟨some 3, [some true]⟩ comDirection.WRITING 7 5 (Or.inl rfl)).1.2.1

/-- Claim C7: the configuration cycle of one device is exactly one WRITING
pass, then one warning per unrecognized configuration key, then one
READING pass; both passes run the orchestrator's single fixed field list
(`programSettings`), and the READING pass never precedes the WRITING
pass. -/
theorem config_cycle_order (dig : Digitizer) (s : registerSettings) (keys : List String) :
    (deviceConfigCycle dig s keys).2
      = CycleEvent.pass comDirection.WRITING (programSettings dig s comDirection.WRITING).2
        :: (keys.map CycleEvent.unknownKey
            ++ [CycleEvent.pass comDirection.READING
                (programSettings dig (programSettings dig s comDirection.WRITING).1
                  comDirection.READING).2])
    ∧ passDirs (deviceConfigCycle dig s keys).2
      = [comDirection.WRITING, comDirection.READING] := by
  refine ⟨rfl, ?_⟩
  simp [deviceConfigCycle, passDirs, List.filterMap_cons, List.filterMap_append]

/-- Claim C9: if the `j`-th device section's `open` throws a connection
error while every earlier section connected cleanly, the run configures
exactly the earlier devices, then logs the exception and the remediation
guidance and calls `exit` with the non-zero status `EXIT_FAILURE`; no
event for any later section is produced. -/
theorem connection_failure_fatal (cfgs : List DeviceCfg) (j : Nat) (c : DeviceCfg)
    (hc : cfgs.get? j = some c)
    (hfail : ∃ e, c.openResult = Except.error e)
    (hok : ∀ k, k < j → ∀ c2, cfgs.get? k = some c2 → opensOK c2 = true) :
    processDevices cfgs
      = processDevices (cfgs.take j)
        ++ [TopEvent.connError c.name, TopEvent.remediation, TopEvent.exitCall EXIT_FAILURE]
    ∧ (processDevices (cfgs.take j)).all isConfigured = true
    ∧ EXIT_FAILURE ≠ 0 := by
  induction cfgs generalizing j with
  | nil => simp [List.get?] at hc
  | cons a rest ih =>
    cases j with
    | zero =>
      obtain ⟨e, he⟩ := hfail
      obtain rfl : a = c := by simpa using hc
      simp [processDevices, he, List.take, EXIT_FAILURE]
    | succ j =>
      have ha : opensOK a = true := hok 0 (Nat.succ_pos j) a rfl
      obtain ⟨d, hd⟩ : ∃ d, a.openResult = Except.ok (some d) := by
        unfold opensOK at ha
        cases hoa : a.openResult with
        | error e => rw [hoa] at ha; simp at ha
        | ok o =>
          cases o with
          | none => rw [hoa] at ha; simp at ha
          | some d => exact ⟨d, rfl⟩
      have hc2 : rest.get? j = some c := by simpa using hc
      have hok2 : ∀ k, k < j → ∀ c2, rest.get? k = some c2 → opensOK c2 = true := by
        intro k hk c2 hg
        exact hok (k + 1) (Nat.succ_lt_succ hk) c2 (by simpa using hg)
      obtain ⟨h1, h2, h3⟩ := ih j hc2 hok2
      refine ⟨?_, ?_, h3⟩
      · simp [processDevices, hd, List.take, h1]
      · simp [List.take, processDevices, hd, h2, isConfigured]

/-- Witness for claim C9: with the middle of three sections failing to
connect, the run configures only the first device and ends with the
remediation log and the failing exit. -/
theorem connection_failure_fatal_witness :
    processDevices [cfgFirst, cfgBad, cfgAfter]
      = processDevices ([cfgFirst, cfgBad, cfgAfter].take 1)
        ++ [TopEvent.connError cfgBad.name, TopEvent.remediation,
            TopEvent.exitCall EXIT_FAILURE] :=
  (connection_failure_fatal [cfgFirst, cfgBad, cfgAfter] 1 cfgBad rfl
    ⟨⟨"no connection", "CAEN_DGTZ_OpenDigitizer"⟩, rfl⟩
    (by
      intro k hk c2 hg
      cases k with
      | zero =>
        obtain rfl := Option.some.inj hg
        rfl
      | succ n => exact absurd hk (by omega))).1

/-- Claim C10: provided `open` never returns a null handle without
throwing, every iteration that proceeds past the connection attempt
carries a non-null handle (so the subsequent dereferences of the handle in
that iteration are safe), and the null check that guards the process exit
fires only on the exception path. -/
theorem handle_nonnull_after_connect (r : Except caenError (Option Digitizer))
    (hopen : ∀ h, r = Except.ok h → h.isSome = true) :
    (∀ h, connectAttempt r = ConnectStep.proceed h → h.isSome = true)
    ∧ (connectAttempt r = ConnectStep.fatalExit → ∃ e, r = Except.error e) := by
  cases r with
  | error e =>
    refine ⟨?_, fun _ => ⟨e, rfl⟩⟩
    intro h hp
    simp [connectAttempt] at hp
  | ok h0 =>
    refine ⟨?_, ?_⟩
    · intro h hp
      have hh : h0 = h := by simpa [connectAttempt] using hp
      exact hh ▸ hopen h0 rfl
    · intro hp
      simp [connectAttempt] at hp

/-- Witness for claim C10: a successful `open` returning a non-null stub
handle proceeds with a handle whose dereference is safe. -/
theorem handle_nonnull_after_connect_witness :
    (some (stubAllOK 0 0)).isSome = true :=
  (handle_nonnull_after_connect (Except.ok (some (stubAllOK 0 0)))
    (fun h hh => by cases hh; rfl)).1 (some (stubAllOK 0 0)) rfl

end CadiDAQ
